import Mathlib

/-!
Verification development for the Aifuge dual-carrier quote system
(`src/app.py`). The pricing core is embedded shallowly: pandas dataframes
become lists of row structures, floats become exact rationals (ℚ), row
filtering becomes `List.filter`, `iloc[0]` becomes `List.head?`, and the
per-carrier quote functions return `Except`-style results. Display-string
formatting (`format_money`, f-strings) is modelled structurally: the Raben
detail line is kept as an ordered list of typed parts, mirroring the
`parts` list built in `raben_quote`.
-/

deriving instance DecidableEq for Except

namespace Aifuge

/-- Leading/trailing-whitespace strip on the character list (Python's
`str.strip()`). -/
def stripWs (l : List Char) : List Char :=
  ((l.dropWhile Char.isWhitespace).reverse.dropWhile Char.isWhitespace).reverse

/-- The digit characters `norm_plz2` extracts: strip the input, then drop
every non-digit character (`re.sub(r"\D", "", s)`). -/
def digitsOf (s : String) : List Char := (stripWs s.data).filter Char.isDigit

/-- Embeds `norm_plz2` (src/app.py lines 14-27): strip the input, drop all
non-digit characters, keep the first two digits zero-padded to width 2;
with no digits at all the function returns the empty string. -/
def norm_plz2 (x : String) : String :=
  let digits := digitsOf x
  if 2 ≤ digits.length then String.mk (digits.take 2)
  else if digits.length = 1 then String.mk ('0' :: digits)
  else ""

/-- Embeds `norm_country_code` (line 29-30): strip and uppercase. -/
def norm_country_code (x : String) : String := x.trim.toUpper

/-- Embeds `norm_country_name` (line 32-33): strip and lowercase. -/
def norm_country_name (x : String) : String := x.trim.toLower

/-- A rate-table row as consumed by `pick_weight_band`: columns `w_from`,
`w_to`, `price`. `w_to` is optional because the source fills a missing
`w_to` with `10^12` inside `pick_weight_band` (lines 97-99). -/
structure Band where
  w_from : ℚ
  w_to : Option ℚ
  price : ℚ
deriving DecidableEq, Repr

/-- The effective upper bound of a band: a missing `w_to` is treated as
`10^12` (src/app.py line 99, `df["w_to"].fillna(10**12)`). -/
def effTo (b : Band) : ℚ := b.w_to.getD (10 ^ 12)

/-- The row mask of line 102: `(df["w_from"] <= weight) & (weight <= df["w_to"])`;
both comparisons are inclusive. -/
def bandMatches (b : Band) (weight : ℚ) : Bool :=
  decide (b.w_from ≤ weight) && decide (weight ≤ effTo b)

/-- The sort key of lines 105-106: band width (`(w_to - w_from).abs()`)
first, then `w_from`, both ascending. -/
def bandKey (b : Band) : ℚ × ℚ := (|effTo b - b.w_from|, b.w_from)

/-- Strict lexicographic comparison of sort keys. -/
def keyLt (p q : ℚ × ℚ) : Bool :=
  decide (p.1 < q.1) || (decide (p.1 = q.1) && decide (p.2 < q.2))

/-- First element with the lexicographically least sort key (the row that
`sort_values(["band_width", "w_from"]) … .iloc[0]` selects; ties keep the
earlier row). -/
def selectMinBand : List Band → Option Band
  | [] => none
  | b :: bs =>
    match selectMinBand bs with
    | none => some b
    | some c => if keyLt (bandKey c) (bandKey b) then some c else some b

/-- Embeds `pick_weight_band` (src/app.py lines 84-117). An empty table
yields `none`; otherwise the rows whose (inclusive) interval contains the
weight are collected and the narrowest one (ties by least `w_from`) is
returned; if no row matches and the weight exceeds the largest effective
`w_to`, the first row attaining that maximum is returned (the clamp
fallback of lines 109-115); otherwise `none`. -/
def pick_weight_band (bands : List Band) (weight : ℚ) : Option Band :=
  if bands.isEmpty then none
  else
    let m := bands.filter (fun b => bandMatches b weight)
    match selectMinBand m with
    | some b => some b
    | none =>
      match (bands.map effTo).max? with
      | some mx =>
        if mx < weight then (bands.filter (fun b => decide (effTo b = mx))).head?
        else none
      | none => none

/-- Row of `dhl_de_plz2_zone.csv` after normalization: `plz2`, `zone`. -/
structure DhlDeZoneRow where
  plz2 : String
  zone : Int
deriving DecidableEq, Repr

/-- Row of `dhl_de_rates.csv` after normalization (`dropna` keeps only rows
with all of `zone`, `w_from`, `w_to`, `price` present). -/
structure DhlDeRateRow where
  zone : Int
  w_from : ℚ
  w_to : ℚ
  price : ℚ
deriving DecidableEq, Repr

/-- Row of `dhl_eu_zone_map.csv` after normalization. -/
structure DhlEuZoneRow where
  country_code : String
  plz2 : String
  zone : Int
deriving DecidableEq, Repr

/-- Row of `dhl_eu_rates_long.csv` after normalization. -/
structure DhlEuRateRow where
  country_code : String
  zone : Int
  w_from : ℚ
  w_to : ℚ
  price : ℚ
deriving DecidableEq, Repr

/-- Row of `raben_zone_map.csv` after normalization: `scope` (uppercased),
`country_norm` (lowercased country), `plz2`, `zone`, plus the original
`country` column used for display. -/
structure RabenZoneRow where
  scope : String
  country_norm : String
  plz2 : String
  zone : Int
  country : String
deriving DecidableEq, Repr

/-- Row of `raben_rates_long.csv` after normalization. -/
structure RabenRateRow where
  scope : String
  country_norm : String
  zone : Int
  w_from : ℚ
  w_to : ℚ
  price : ℚ
deriving DecidableEq, Repr

/-- View of a DHL DE rate row as a `pick_weight_band` input. -/
def DhlDeRateRow.toBand (r : DhlDeRateRow) : Band := ⟨r.w_from, some r.w_to, r.price⟩

/-- View of a DHL EU rate row as a `pick_weight_band` input. -/
def DhlEuRateRow.toBand (r : DhlEuRateRow) : Band := ⟨r.w_from, some r.w_to, r.price⟩

/-- View of a Raben rate row as a `pick_weight_band` input. -/
def RabenRateRow.toBand (r : RabenRateRow) : Band := ⟨r.w_from, some r.w_to, r.price⟩

/-- Failure payloads of `dhl_quote` (the four f-string error returns at
lines 207, 214, 228, 235, keeping the interpolated values). -/
inductive DhlErr
  | deZoneNotFound (plz2 : String)
  | deRateNotFound (zone : Int)
  | euZoneNotFound (cc plz2 : String)
  | euRateNotFound (cc : String) (zone : Int)
deriving DecidableEq, Repr

/-- Success payload of `dhl_quote` (line 219/240): base, total, zone. -/
structure DhlOk where
  base : ℚ
  total : ℚ
  zone : Int
deriving DecidableEq, Repr

/-- Embeds `dhl_quote` (src/app.py lines 200-243). Scope `"DE"` looks up
the zone by `plz2` in the domestic zone map and the rate rows by zone;
any other scope is the EU branch keyed by normalized country code and
`plz2`. In both branches the total is `base * (1 + fuel_pct + security_pct)`
(lines 217 and 238). -/
def dhl_quote (ddz : List DhlDeZoneRow) (ddr : List DhlDeRateRow)
    (dez : List DhlEuZoneRow) (der : List DhlEuRateRow)
    (scope dest_country dest_plz2 : String)
    (weight fuel_pct security_pct : ℚ) : Except DhlErr DhlOk :=
  if scope = "DE" then
    let plz2 := dest_plz2
    match (ddz.filter (fun r => decide (r.plz2 = plz2))).head? with
    | none => .error (.deZoneNotFound plz2)
    | some row =>
      let zone := row.zone
      let cand := ddr.filter (fun r => decide (r.zone = zone))
      match pick_weight_band (cand.map DhlDeRateRow.toBand) weight with
      | none => .error (.deRateNotFound zone)
      | some band =>
        let base := band.price
        let total := base * (1 + fuel_pct + security_pct)
        .ok ⟨base, total, zone⟩
  else
    let cc := norm_country_code dest_country
    let plz2 := dest_plz2
    match (dez.filter (fun r => decide (r.country_code = cc) && decide (r.plz2 = plz2))).head? with
    | none => .error (.euZoneNotFound cc plz2)
    | some row =>
      let zone := row.zone
      let cand := der.filter (fun r => decide (r.country_code = cc) && decide (r.zone = zone))
      match pick_weight_band (cand.map DhlEuRateRow.toBand) weight with
      | none => .error (.euRateNotFound cc zone)
      | some band =>
        let base := band.price
        let total := base * (1 + fuel_pct + security_pct)
        .ok ⟨base, total, zone⟩

/-- The country alias table of `raben_quote` (lines 252-265), applied via
`alias.get(user, user)`. -/
def rabenAlias (user : String) : String :=
  if user = "pl" ∨ user = "poland" ∨ user = "polen" then "polen"
  else if user = "de" ∨ user = "germany" ∨ user = "deutschland" then "deutschland"
  else if user = "bg" ∨ user = "bulgaria" ∨ user = "bulgarien" then "bulgarien"
  else if user = "lv" ∨ user = "latvia" ∨ user = "lettland" then "lettland"
  else user

/-- The country key used by `raben_quote` (lines 251-270): lowercase the
input, apply the alias table, then force `"deutschland"` when scope is
`"DE"`. -/
def rabenCountryNorm (scope dest_country : String) : String :=
  let user := norm_country_name dest_country
  let cn := rabenAlias user
  if scope = "DE" then "deutschland" else cn

/-- Failure payloads of `raben_quote` (the f-string error returns at
lines 275 and 282). -/
inductive RabenErr
  | zoneNotFound (scope dest_country plz2 : String)
  | rateNotFound (scope dest_country : String) (zone : Int)
deriving DecidableEq, Repr

/-- One entry of the Raben detail line (the `parts` list of lines 299-310),
kept structurally instead of as a formatted string. -/
inductive RabenPart
  | countryZone (country : String) (zone : Int)
  | base (amount : ℚ)
  | daf (pct : ℚ)
  | adr (fee : ℚ)
  | avis (fee : ℚ)
  | insuranceMin (fee : ℚ)
  | total (amount : ℚ)
deriving DecidableEq, Repr

/-- Success payload of `raben_quote` (line 313): base, total, zone, plus
the detail parts. -/
structure RabenOk where
  base : ℚ
  total : ℚ
  zone : Int
  parts : List RabenPart
deriving DecidableEq, Repr

/-- Zone-map row mask of line 273. -/
def rabenZoneRowMatch (scope cn plz2 : String) (r : RabenZoneRow) : Bool :=
  decide (r.scope = scope) && decide (r.country_norm = cn) && decide (r.plz2 = plz2)

/-- Rate-row mask of line 279. -/
def rabenRateRowMatch (scope cn : String) (zone : Int) (r : RabenRateRow) : Bool :=
  decide (r.scope = scope) && decide (r.country_norm = cn) && decide (r.zone = zone)

/-- Embeds `raben_quote` (src/app.py lines 245-316). The country key is
normalized (forced to `"deutschland"` for scope `"DE"`), the zone row and
the rate rows are filtered by (scope, country, plz2 / zone), the band is
selected by `pick_weight_band` at the supplied weight, and the total is
`base * (1 + daf_pct) + fees` where `fees` adds the flat ADR, Avis and
insurance-minimum fees exactly when their triggers hold (lines 286-294).
The detail parts include ADR/Avis/insurance entries only when triggered
(lines 299-310). -/
def raben_quote (zmap : List RabenZoneRow) (rates : List RabenRateRow)
    (scope dest_country dest_plz2 : String) (weight daf_pct : ℚ)
    (adr avis : Bool) (insurance_value adr_fee avis_fee insurance_min : ℚ) :
    Except RabenErr RabenOk :=
  let plz2 := dest_plz2
  let country_norm := rabenCountryNorm scope dest_country
  match (zmap.filter (rabenZoneRowMatch scope country_norm plz2)).head? with
  | none => .error (.zoneNotFound scope dest_country plz2)
  | some row =>
    let zone := row.zone
    let cand := rates.filter (rabenRateRowMatch scope country_norm zone)
    match pick_weight_band (cand.map RabenRateRow.toBand) weight with
    | none => .error (.rateNotFound scope dest_country zone)
    | some band =>
      let base := band.price
      let fees :=
        (if adr then adr_fee else 0) + (if avis then avis_fee else 0) +
          (if 0 < insurance_value then insurance_min else 0)
      let total := base * (1 + daf_pct) + fees
      let display_country := row.country
      let parts : List RabenPart :=
        [RabenPart.countryZone display_country zone,
         RabenPart.base base, RabenPart.daf daf_pct]
        ++ (if adr then [RabenPart.adr adr_fee] else [])
        ++ (if avis then [RabenPart.avis avis_fee] else [])
        ++ (if 0 < insurance_value then [RabenPart.insuranceMin insurance_min] else [])
        ++ [RabenPart.total total]
      .ok ⟨base, total, zone, parts⟩

/-- The six reference tables loaded by `load_all_data`. -/
structure AllData where
  dhl_de_plz2_zone : List DhlDeZoneRow
  dhl_de_rates : List DhlDeRateRow
  dhl_eu_zone_map : List DhlEuZoneRow
  dhl_eu_rates_long : List DhlEuRateRow
  raben_zone_map : List RabenZoneRow
  raben_rates_long : List RabenRateRow
deriving DecidableEq, Repr

/-- Embeds the orchestration of src/app.py lines 370-395: both carrier
pipelines are invoked on the same request and their two results are
returned side by side. -/
def quoteBoth (data : AllData) (scope dest_country dest_plz2 : String)
    (weight fuel_pct security_pct daf_pct : ℚ) (adr avis : Bool)
    (insurance_value adr_fee avis_fee insurance_min : ℚ) :
    Except DhlErr DhlOk × Except RabenErr RabenOk :=
  (dhl_quote data.dhl_de_plz2_zone data.dhl_de_rates data.dhl_eu_zone_map
     data.dhl_eu_rates_long scope dest_country dest_plz2 weight fuel_pct security_pct,
   raben_quote data.raben_zone_map data.raben_rates_long scope dest_country
     dest_plz2 weight daf_pct adr avis insurance_value adr_fee avis_fee insurance_min)

/-- Projection used to compare quote outcomes: the successful Raben record,
dropping failure payloads. -/
def rabenOkOf (r : Except RabenErr RabenOk) : Option RabenOk := r.toOption

/-- The base price of a successful Raben quote, if any. -/
def rabenBaseOf (r : Except RabenErr RabenOk) : Option ℚ := r.toOption.map RabenOk.base

/-- Whether a detail part is the insurance-minimum line. -/
def isInsuranceMinPart : RabenPart → Bool
  | .insuranceMin _ => true
  | _ => false

/-- Whether a detail part is the ADR line. -/
def isAdrPart : RabenPart → Bool
  | .adr _ => true
  | _ => false

/-- Whether a detail part is the Avis line. -/
def isAvisPart : RabenPart → Bool
  | .avis _ => true
  | _ => false

/-- Whether a detail part is the base-price line. -/
def isBasePart : RabenPart → Bool
  | .base _ => true
  | _ => false

/-- Whether a detail part is the DAF line. -/
def isDafPart : RabenPart → Bool
  | .daf _ => true
  | _ => false

/-- Specification-side postal normalization, for refinement comparison with
`norm_plz2`: per the spec it fails (here: `none`) when no digit remains,
instead of returning a value. -/
def normPostal_spec (raw : String) : Option String :=
  let digits := raw.data.filter Char.isDigit
  if 2 ≤ digits.length then some (String.mk (digits.take 2))
  else if digits.length = 1 then some (String.mk ('0' :: digits))
  else none

/-- Packaging types of the spec's chargeable-weight calculator. -/
inductive Packaging
  | cartons
  | halfPallet
  | fullPallet
  | otherPallet
deriving DecidableEq, Repr

/-- The spec's packaging-type minimum billable weights (kg). -/
def packagingMinKg : Packaging → ℚ
  | .cartons => 15
  | .halfPallet => 100
  | .fullPallet => 200
  | .otherPallet => 300

/-- Specification-side chargeable-weight calculator, for refinement
comparison with the code: the maximum of actual weight, the packaging
minimum, volume × 200 and loading-meters × 1000. -/
def chargeableWeight_spec (actualKg : ℚ) (packaging : Packaging)
    (volumeM3 loadingMeters : ℚ) : ℚ :=
  max (max actualKg (packagingMinKg packaging)) (max (volumeM3 * 200) (loadingMeters * 1000))

/-- Specification-side carrier-B total, for refinement comparison with the
code: base plus base × diesel floater plus base × DAF plus base × mobility
floater, plus the flat fees when triggered. -/
def rabenTotal_spec (base dieselPct dafPct mobilityPct : ℚ) (adr avis : Bool)
    (insurance_value adr_fee avis_fee insurance_min : ℚ) : ℚ :=
  base + base * dieselPct + base * dafPct + base * mobilityPct +
    (if adr then adr_fee else 0) + (if avis then avis_fee else 0) +
    (if 0 < insurance_value then insurance_min else 0)

/-- Example Raben zone map: zone 1 for DE / deutschland / PLZ2 38. -/
def rabenZoneMapEx : List RabenZoneRow :=
  [⟨"DE", "deutschland", "38", 1, "Deutschland"⟩]

/-- Example Raben rate table: one bracket 0–5000 kg at 100 EUR in zone 1. -/
def rabenRatesEx : List RabenRateRow :=
  [⟨"DE", "deutschland", 1, 0, 5000, 100⟩]

/-- Example Raben rate table with brackets 0–50 kg at 10 EUR and 50–150 kg
at 20 EUR in zone 1. -/
def rabenRatesTwoEx : List RabenRateRow :=
  [⟨"DE", "deutschland", 1, 0, 50, 10⟩, ⟨"DE", "deutschland", 1, 50, 150, 20⟩]

/-- Example DHL domestic zone map: PLZ2 38 in zone 2. -/
def dhlDeZoneEx : List DhlDeZoneRow := [⟨"38", 2⟩]

/-- Example DHL domestic rate table: bracket 100–200 kg at 45 EUR, zone 2. -/
def dhlDeRatesEx : List DhlDeRateRow := [⟨2, 100, 200, 45⟩]

/-- Example full data store with all six tables populated. -/
def allDataEx : AllData :=
  ⟨dhlDeZoneEx, dhlDeRatesEx, [], [], rabenZoneMapEx, rabenRatesEx⟩

/-- Example data store whose Raben tables are empty (Raben resolution
fails) but whose DHL tables agree with `allDataEx`. -/
def allDataNoRabenEx : AllData :=
  ⟨dhlDeZoneEx, dhlDeRatesEx, [], [], [], []⟩

/-- Claim C1: for every rate table and weight strictly above every band's
upper bound, the claimed behavior is a NotFound result and never a price.
The code instead falls back to the band with the maximal upper bound
(src/app.py lines 109-115) and returns its price: at a table whose only
band covers 0–100 and weight 6000, a band (hence a price) is returned. -/
theorem c1_counterexample :
    (∀ b ∈ [(⟨0, some 100, 45⟩ : Band)], effTo b < 6000) ∧
    pick_weight_band [(⟨0, some 100, 45⟩ : Band)] 6000 = some ⟨0, some 100, 45⟩ := by
  decide

/-- Claim C1 (amended): when the requested weight strictly exceeds every
band's effective upper bound in a nonempty table, `pick_weight_band`
returns (the price of) a band attaining the maximal upper bound, rather
than a NotFound result. -/
theorem c1_amended (bands : List Band) (w : ℚ) (h1 : bands ≠ [])
    (h2 : ∀ b ∈ bands, effTo b < w) :
    ∃ mx b, (bands.map effTo).max? = some mx ∧ b ∈ bands ∧ effTo b = mx ∧
      pick_weight_band bands w = some b := by
  obtain ⟨mx, hmx⟩ : ∃ mx, (bands.map effTo).max? = some mx := by
    rcases h : (bands.map effTo).max? with _ | mx
    · rw [List.max?_eq_none_iff] at h
      simp only [List.map_eq_nil_iff] at h
      exact absurd h h1
    · exact ⟨mx, rfl⟩
  have hmem : mx ∈ bands.map effTo := List.max?_mem max_choice hmx
  obtain ⟨b0, hb0, hb0e⟩ := List.mem_map.1 hmem
  have hmx_lt : mx < w := hb0e ▸ h2 b0 hb0
  have hfilter : bands.filter (fun b => bandMatches b w) = [] := by
    rw [List.filter_eq_nil_iff]
    intro b hb
    have hlt := h2 b hb
    simp only [bandMatches, Bool.and_eq_true, decide_eq_true_eq, not_and]
    intro _
    exact not_le.2 hlt
  have hb0f : b0 ∈ bands.filter (fun b => decide (effTo b = mx)) :=
    List.mem_filter.2 ⟨hb0, by simp [hb0e]⟩
  obtain ⟨c, cs, hcs⟩ : ∃ c cs, bands.filter (fun b => decide (effTo b = mx)) = c :: cs := by
    cases h : bands.filter (fun b => decide (effTo b = mx)) with
    | nil => rw [h] at hb0f; cases hb0f
    | cons c cs => exact ⟨c, cs, rfl⟩
  have hc_mem : c ∈ bands.filter (fun b => decide (effTo b = mx)) := by
    rw [hcs]; exact List.mem_cons_self _ _
  have hc := List.mem_filter.1 hc_mem
  have hne : bands.isEmpty = false := by
    cases bands with
    | nil => exact absurd rfl h1
    | cons x xs => rfl
  refine ⟨mx, c, hmx, hc.1, by simpa using hc.2, ?_⟩
  simp only [pick_weight_band, hne, Bool.false_eq_true, if_false, hfilter,
    selectMinBand, hmx, hcs]
  rw [if_pos hmx_lt]
  rfl

/-- Witness for `c1_amended` at the one-band table of `c1_counterexample`. -/
theorem c1_amended_witness :
    ∃ mx b, (([(⟨0, some 100, 45⟩ : Band)]).map effTo).max? = some mx ∧
      b ∈ [(⟨0, some 100, 45⟩ : Band)] ∧ effTo b = mx ∧
      pick_weight_band [(⟨0, some 100, 45⟩ : Band)] 6000 = some b :=
  c1_amended [(⟨0, some 100, 45⟩ : Band)] 6000 (by decide) (by decide)

/-- Claim C4: the claimed boundary convention makes non-zero-based
brackets open at `w_from`, so that no weight matches two brackets. The
code's row mask (line 102) is inclusive at both ends for every bracket:
with brackets 0–100 and 100–200, weight 100 matches both. -/
theorem c4_counterexample :
    bandMatches ⟨0, some 100, 1⟩ 100 = true ∧
    bandMatches ⟨100, some 200, 2⟩ 100 = true := by decide

/-- Claim C4 (amended): every bracket is matched inclusively at both ends
(`w_from ≤ w ≤ w_to`); at a shared boundary both brackets match, and the
narrowest-band-then-least-`w_from` tie-break still selects the lower
bracket, so with brackets [0,100]→p1 and [100,200]→p2 weight 100 selects
p1 and weight 100.01 selects p2. -/
theorem c4_amended (p1 p2 : ℚ) :
    bandMatches ⟨100, some 200, p2⟩ 100 = true ∧
    pick_weight_band [⟨0, some 100, p1⟩, ⟨100, some 200, p2⟩] 100
      = some ⟨0, some 100, p1⟩ ∧
    pick_weight_band [⟨0, some 100, p1⟩, ⟨100, some 200, p2⟩] (10001 / 100)
      = some ⟨100, some 200, p2⟩ := by
  refine ⟨rfl, ?_, ?_⟩
  · have h1 : bandMatches ⟨0, some 100, p1⟩ 100 = true := by
      simp [bandMatches, effTo]
    have h2 : bandMatches ⟨100, some 200, p2⟩ 100 = true := by
      simp only [bandMatches, effTo, Option.getD_some, Bool.and_eq_true, decide_eq_true_eq]
      constructor <;> norm_num
    have hk : keyLt (bandKey ⟨100, some 200, p2⟩) (bandKey ⟨0, some 100, p1⟩) = false := by
      simp only [bandKey, keyLt, effTo, Option.getD_some, Bool.or_eq_false_iff,
        Bool.and_eq_false_iff, decide_eq_false_iff_not, not_lt]
      norm_num
    simp [pick_weight_band, h1, h2, selectMinBand, hk]
  · have h1 : bandMatches ⟨0, some 100, p1⟩ (10001 / 100) = false := by
      simp only [bandMatches, effTo, Option.getD_some, Bool.and_eq_false_iff,
        decide_eq_false_iff_not, not_le]
      right
      norm_num
    have h2 : bandMatches ⟨100, some 200, p2⟩ (10001 / 100) = true := by
      simp only [bandMatches, effTo, Option.getD_some, Bool.and_eq_true, decide_eq_true_eq]
      constructor <;> norm_num
    simp [pick_weight_band, h1, h2, selectMinBand]

/-- Claim C6: the claimed zero-digit behavior is a failure with an
InvalidPostalCode error. The code's `norm_plz2` (lines 14-27) instead
returns the empty string: on input `"abc"` it succeeds with `""` while
the spec-side normalizer fails. -/
theorem c6_counterexample :
    norm_plz2 "abc" = "" ∧ normPostal_spec "abc" = none := by decide

/-- Claim C6 (amended): `norm_plz2` strips non-digits and returns the
first two digits when at least two remain, the single digit left-padded
with a zero when exactly one remains, and the empty string (a sentinel
value, not an error) when none remain. -/
theorem c6_amended (s : String) :
    (2 ≤ (digitsOf s).length → norm_plz2 s = String.mk ((digitsOf s).take 2)) ∧
    ((digitsOf s).length = 1 → norm_plz2 s = String.mk ('0' :: digitsOf s)) ∧
    ((digitsOf s).length = 0 → norm_plz2 s = "") := by
  simp only [norm_plz2, digitsOf]
  refine ⟨fun h => ?_, fun h => ?_, fun h => ?_⟩
  · rw [if_pos h]
  · rw [if_neg (by omega), if_pos h]
  · rw [if_neg (by omega), if_neg (by omega)]

/-- Witness for `c6_amended` at inputs with two digits, one digit and no
digit. -/
theorem c6_amended_witness :
    (norm_plz2 "38110" = String.mk ((digitsOf "38110").take 2) ∧
      String.mk ((digitsOf "38110").take 2) = "38") ∧
    (norm_plz2 "a7" = String.mk ('0' :: digitsOf "a7") ∧
      String.mk ('0' :: digitsOf "a7") = "07") ∧
    norm_plz2 "!!" = "" :=
  ⟨⟨(c6_amended "38110").1 (by decide), by decide⟩,
   ⟨(c6_amended "a7").2.1 (by decide), by decide⟩,
   (c6_amended "!!").2.2 (by decide)⟩

/-- Claim C10: a band with a missing `w_to` has its upper bound replaced
by `10^12` during selection (line 99), so any weight between `w_from` and
`10^12` matches it; confirmed, including that a one-band table with
missing `w_to` returns that band. -/
theorem c10_confirmed (b : Band) (w : ℚ) (hto : b.w_to = none)
    (h1 : b.w_from ≤ w) (h2 : w ≤ 10 ^ 12) :
    effTo b = 10 ^ 12 ∧ bandMatches b w = true ∧ pick_weight_band [b] w = some b := by
  have he : effTo b = 10 ^ 12 := by simp [effTo, hto]
  have hm : bandMatches b w = true := by
    simp only [bandMatches, he, Bool.and_eq_true, decide_eq_true_eq]
    exact ⟨h1, h2⟩
  refine ⟨he, hm, ?_⟩
  simp [pick_weight_band, hm, selectMinBand]

/-- Witness for `c10_confirmed` at the band 5–(missing) and weight
1000000. -/
theorem c10_confirmed_witness :
    effTo ⟨5, none, 7⟩ = 10 ^ 12 ∧ bandMatches ⟨5, none, 7⟩ 1000000 = true ∧
    pick_weight_band [(⟨5, none, 7⟩ : Band)] 1000000 = some ⟨5, none, 7⟩ :=
  c10_confirmed ⟨5, none, 7⟩ 1000000 rfl (by norm_num) (by norm_num)

/-- Claim C2: the claimed carrier-B total includes diesel-floater, DAF and
mobility-floater percentages each applied to the base. The code
(src/app.py line 294) applies only the DAF percentage: at base 100 EUR
and DAF 10% with a hypothetical 10% diesel floater and 0% mobility
floater, the claimed chain yields 120 EUR while the code computes
110 EUR. -/
theorem c2_counterexample :
    raben_quote rabenZoneMapEx rabenRatesEx "DE" "DE" "38" 200 (1 / 10) false false 0
        (25 / 2) 12 (119 / 20)
      = .ok ⟨100, 110, 1, [.countryZone "Deutschland" 1, .base 100, .daf (1 / 10),
          .total 110]⟩ ∧
    rabenTotal_spec 100 (1 / 10) (1 / 10) 0 false false 0 (25 / 2) 12 (119 / 20) = 120 ∧
    (110 : ℚ) ≠ 120 := by
  refine ⟨?_, by norm_num [rabenTotal_spec], by norm_num⟩
  norm_num [raben_quote, rabenCountryNorm, rabenZoneMapEx, rabenRatesEx,
    rabenZoneRowMatch, rabenRateRowMatch, pick_weight_band, bandMatches, effTo,
    selectMinBand, bandKey, keyLt, RabenRateRow.toBand, List.filter]

/-- Claim C2 (amended): every successful carrier-B quote's total equals
base plus base × DAFPercent (no diesel-floater or mobility-floater
component exists), plus the flat ADR fee iff ADR is selected, the flat
Avis fee iff that option is selected, and the flat insurance-minimum fee
iff an insurance value > 0 was supplied. -/
theorem c2_amended (zmap : List RabenZoneRow) (rates : List RabenRateRow)
    (scope c plz : String) (w daf : ℚ) (adr avis : Bool) (iv f1 f2 f3 : ℚ)
    (r : RabenOk)
    (h : raben_quote zmap rates scope c plz w daf adr avis iv f1 f2 f3 = .ok r) :
    r.total = r.base * (1 + daf) +
      ((if adr then f1 else 0) + (if avis then f2 else 0) + (if 0 < iv then f3 else 0)) := by
  simp only [raben_quote] at h
  rcases hz : (zmap.filter (rabenZoneRowMatch scope (rabenCountryNorm scope c) plz)).head?
    with _ | row
  · simp only [hz] at h
    simp at h
  · simp only [hz] at h
    rcases hb : pick_weight_band
        ((rates.filter (rabenRateRowMatch scope (rabenCountryNorm scope c) row.zone)).map
          RabenRateRow.toBand) w with _ | band
    · simp only [hb] at h
      simp at h
    · simp only [hb] at h
      injection h with h2
      subst h2
      rfl

/-- Witness for `c2_amended` at a concrete Raben request with ADR selected
and a positive insurance value. -/
theorem c2_amended_witness :
    (⟨100, 2569 / 20, 1, [RabenPart.countryZone "Deutschland" 1, RabenPart.base 100,
        RabenPart.daf (1 / 10), RabenPart.adr (25 / 2), RabenPart.insuranceMin (119 / 20),
        RabenPart.total (2569 / 20)]⟩ : RabenOk).total
      = (⟨100, 2569 / 20, 1, [RabenPart.countryZone "Deutschland" 1, RabenPart.base 100,
          RabenPart.daf (1 / 10), RabenPart.adr (25 / 2), RabenPart.insuranceMin (119 / 20),
          RabenPart.total (2569 / 20)]⟩ : RabenOk).base * (1 + 1 / 10) +
        ((if true then (25 / 2 : ℚ) else 0) + (if false then (12 : ℚ) else 0) +
          (if (0 : ℚ) < 500 then (119 / 20 : ℚ) else 0)) :=
  c2_amended rabenZoneMapEx rabenRatesEx "DE" "PL" "38" 200 (1 / 10) true false 500
    (25 / 2) 12 (119 / 20) _
    (by norm_num [raben_quote, rabenCountryNorm, norm_country_name, rabenAlias,
      rabenZoneMapEx, rabenRatesEx, rabenZoneRowMatch, rabenRateRowMatch,
      pick_weight_band, bandMatches, effTo, selectMinBand, bandKey, keyLt,
      RabenRateRow.toBand, List.filter])

/-- Claim C3: the claimed rate-bracket weight is a chargeable weight (the
maximum of actual weight, packaging minimum, volume × 200 and loading
meters × 1000). The code has no such computation: at actual weight 40 kg
(packaging HalfPallet, volume 0, loading-meters 0) the spec-side
chargeable weight is 100 kg, but the code selects the bracket containing
40 kg (base 10 EUR) instead of the bracket containing 100 kg (base
20 EUR). -/
theorem c3_counterexample :
    chargeableWeight_spec 40 .halfPallet 0 0 = 100 ∧
    rabenBaseOf (raben_quote rabenZoneMapEx rabenRatesTwoEx "DE" "DE" "38" 40 (1 / 10)
      false false 0 0 0 0) = some 10 ∧
    rabenBaseOf (raben_quote rabenZoneMapEx rabenRatesTwoEx "DE" "DE" "38" 100 (1 / 10)
      false false 0 0 0 0) = some 20 ∧
    (10 : ℚ) ≠ 20 := by
  refine ⟨?_, by decide, by decide, by norm_num⟩
  simp only [chargeableWeight_spec, packagingMinKg]
  norm_num

/-- Claim C3 (amended): the weight used for rate-bracket selection is the
actual weight exactly as supplied; every successful Raben quote's base is
the price of the band that `pick_weight_band` selects at that actual
weight (no packaging minimum, volumetric conversion or loading-meter
conversion is applied). -/
theorem c3_amended (zmap : List RabenZoneRow) (rates : List RabenRateRow)
    (scope c plz : String) (w daf : ℚ) (adr avis : Bool) (iv f1 f2 f3 : ℚ)
    (r : RabenOk)
    (h : raben_quote zmap rates scope c plz w daf adr avis iv f1 f2 f3 = .ok r) :
    ∃ row band,
      (zmap.filter (rabenZoneRowMatch scope (rabenCountryNorm scope c) plz)).head?
        = some row ∧
      pick_weight_band
        ((rates.filter (rabenRateRowMatch scope (rabenCountryNorm scope c) row.zone)).map
          RabenRateRow.toBand) w = some band ∧
      r.base = band.price := by
  simp only [raben_quote] at h
  rcases hz : (zmap.filter (rabenZoneRowMatch scope (rabenCountryNorm scope c) plz)).head?
    with _ | row
  · simp only [hz] at h
    simp at h
  · simp only [hz] at h
    rcases hb : pick_weight_band
        ((rates.filter (rabenRateRowMatch scope (rabenCountryNorm scope c) row.zone)).map
          RabenRateRow.toBand) w with _ | band
    · simp only [hb] at h
      simp at h
    · simp only [hb] at h
      injection h with h2
      subst h2
      exact ⟨row, band, rfl, hb, rfl⟩

/-- Witness for `c3_amended` at the 40 kg request of `c3_counterexample`. -/
theorem c3_amended_witness :
    ∃ row band,
      (rabenZoneMapEx.filter (rabenZoneRowMatch "DE" (rabenCountryNorm "DE" "DE") "38")).head?
        = some row ∧
      pick_weight_band
        ((rabenRatesTwoEx.filter (rabenRateRowMatch "DE" (rabenCountryNorm "DE" "DE")
          row.zone)).map RabenRateRow.toBand) 40 = some band ∧
      (⟨10, 11, 1, [RabenPart.countryZone "Deutschland" 1, RabenPart.base 10,
        RabenPart.daf (1 / 10), RabenPart.total 11]⟩ : RabenOk).base = band.price :=
  c3_amended rabenZoneMapEx rabenRatesTwoEx "DE" "DE" "38" 40 (1 / 10) false false 0 0 0 0
    _
    (by norm_num [raben_quote, rabenCountryNorm, rabenZoneMapEx, rabenRatesTwoEx,
      rabenZoneRowMatch, rabenRateRowMatch, pick_weight_band, bandMatches, effTo,
      selectMinBand, bandKey, keyLt, RabenRateRow.toBand, List.filter])

/-- Claim C5: every successful carrier-A quote's total equals
base × (1 + fuelPercent + securityPercent) (src/app.py lines 217 and 238),
and the scenario-1 request (zone 2 via PLZ2 38, bracket 100–200 kg at
45 EUR, fuel 12%, security 0%) totals 252/5 = 50.40 EUR. Confirmed. -/
theorem c5_confirmed :
    (∀ (ddz : List DhlDeZoneRow) (ddr : List DhlDeRateRow) (dez : List DhlEuZoneRow)
       (der : List DhlEuRateRow) (scope c plz : String) (w fp sp : ℚ) (r : DhlOk),
       dhl_quote ddz ddr dez der scope c plz w fp sp = .ok r →
       r.total = r.base * (1 + fp + sp)) ∧
    dhl_quote dhlDeZoneEx dhlDeRatesEx [] [] "DE" "Deutschland" "38" 150 (12 / 100) 0
      = .ok ⟨45, 252 / 5, 2⟩ := by
  refine ⟨?_, by norm_num [dhl_quote, dhlDeZoneEx, dhlDeRatesEx, pick_weight_band,
    bandMatches, effTo, selectMinBand, bandKey, keyLt, DhlDeRateRow.toBand, List.filter]⟩
  intro ddz ddr dez der scope c plz w fp sp r h
  simp only [dhl_quote] at h
  by_cases hs : scope = "DE"
  · rw [if_pos hs] at h
    rcases hz : (ddz.filter (fun rr => decide (rr.plz2 = plz))).head? with _ | row
    · simp only [hz] at h
      simp at h
    · simp only [hz] at h
      rcases hb : pick_weight_band
          ((ddr.filter (fun rr => decide (rr.zone = row.zone))).map DhlDeRateRow.toBand) w
          with _ | band
      · simp only [hb] at h
        simp at h
      · simp only [hb] at h
        injection h with h2
        subst h2
        rfl
  · rw [if_neg hs] at h
    rcases hz : (dez.filter (fun rr =>
        decide (rr.country_code = norm_country_code c) && decide (rr.plz2 = plz))).head?
        with _ | row
    · simp only [hz] at h
      simp at h
    · simp only [hz] at h
      rcases hb : pick_weight_band
          ((der.filter (fun rr =>
            decide (rr.country_code = norm_country_code c) &&
              decide (rr.zone = row.zone))).map DhlEuRateRow.toBand) w with _ | band
      · simp only [hb] at h
        simp at h
      · simp only [hb] at h
        injection h with h2
        subst h2
        rfl

/-- Witness for `c5_confirmed` at the scenario-1 request. -/
theorem c5_confirmed_witness :
    (⟨45, 252 / 5, 2⟩ : DhlOk).total = (⟨45, 252 / 5, 2⟩ : DhlOk).base * (1 + 12 / 100 + 0) :=
  c5_confirmed.1 dhlDeZoneEx dhlDeRatesEx [] [] "DE" "Deutschland" "38" 150 (12 / 100) 0
    _ c5_confirmed.2

/-- Claim C7: the claimed itemized breakdown retains every surcharge with
its own label even when untriggered; in particular an insurance line at
0.00 when the insurance value is 0. The code (src/app.py lines 304-309)
appends ADR, Avis and InsuranceMin parts only when triggered: with
insurance value 0 the successful quote's parts carry no insurance line at
all. -/
theorem c7_counterexample :
    raben_quote rabenZoneMapEx rabenRatesEx "DE" "DE" "38" 200 (1 / 10) false false 0
        (25 / 2) 12 (119 / 20)
      = .ok ⟨100, 110, 1, [.countryZone "Deutschland" 1, .base 100, .daf (1 / 10),
          .total 110]⟩ ∧
    List.countP isInsuranceMinPart
      [RabenPart.countryZone "Deutschland" 1, RabenPart.base 100, RabenPart.daf (1 / 10),
        RabenPart.total 110] = 0 := by
  refine ⟨?_, by decide⟩
  norm_num [raben_quote, rabenCountryNorm, rabenZoneMapEx, rabenRatesEx,
    rabenZoneRowMatch, rabenRateRowMatch, pick_weight_band, bandMatches, effTo,
    selectMinBand, bandKey, keyLt, RabenRateRow.toBand, List.filter]

/-- Claim C7 (amended): in every successful Raben quote's breakdown the
base and DAF lines always appear exactly once, while the ADR, Avis and
insurance-minimum lines appear exactly when their trigger holds and are
omitted entirely (not shown at 0.00) otherwise. -/
theorem c7_amended (zmap : List RabenZoneRow) (rates : List RabenRateRow)
    (scope c plz : String) (w daf : ℚ) (adr avis : Bool) (iv f1 f2 f3 : ℚ)
    (r : RabenOk)
    (h : raben_quote zmap rates scope c plz w daf adr avis iv f1 f2 f3 = .ok r) :
    r.parts.countP isBasePart = 1 ∧ r.parts.countP isDafPart = 1 ∧
    r.parts.countP isAdrPart = (if adr then 1 else 0) ∧
    r.parts.countP isAvisPart = (if avis then 1 else 0) ∧
    r.parts.countP isInsuranceMinPart = (if 0 < iv then 1 else 0) := by
  simp only [raben_quote] at h
  rcases hz : (zmap.filter (rabenZoneRowMatch scope (rabenCountryNorm scope c) plz)).head?
    with _ | row
  · simp only [hz] at h
    simp at h
  · simp only [hz] at h
    rcases hb : pick_weight_band
        ((rates.filter (rabenRateRowMatch scope (rabenCountryNorm scope c) row.zone)).map
          RabenRateRow.toBand) w with _ | band
    · simp only [hb] at h
      simp at h
    · simp only [hb] at h
      injection h with h2
      subst h2
      cases adr <;> cases avis <;> by_cases hiv : (0 : ℚ) < iv <;>
        simp [hiv, List.countP_append, List.countP_cons, isBasePart, isDafPart,
          isAdrPart, isAvisPart, isInsuranceMinPart]

/-- Witness for `c7_amended` at a request with ADR, Avis and a positive
insurance value all triggered. -/
theorem c7_amended_witness :
    (⟨100, 2809 / 20, 1, [RabenPart.countryZone "Deutschland" 1, RabenPart.base 100,
        RabenPart.daf (1 / 10), RabenPart.adr (25 / 2), RabenPart.avis 12,
        RabenPart.insuranceMin (119 / 20), RabenPart.total (2809 / 20)]⟩ : RabenOk).parts.countP
        isBasePart = 1 ∧
    (⟨100, 2809 / 20, 1, [RabenPart.countryZone "Deutschland" 1, RabenPart.base 100,
        RabenPart.daf (1 / 10), RabenPart.adr (25 / 2), RabenPart.avis 12,
        RabenPart.insuranceMin (119 / 20), RabenPart.total (2809 / 20)]⟩ : RabenOk).parts.countP
        isDafPart = 1 ∧
    (⟨100, 2809 / 20, 1, [RabenPart.countryZone "Deutschland" 1, RabenPart.base 100,
        RabenPart.daf (1 / 10), RabenPart.adr (25 / 2), RabenPart.avis 12,
        RabenPart.insuranceMin (119 / 20), RabenPart.total (2809 / 20)]⟩ : RabenOk).parts.countP
        isAdrPart = (if true then 1 else 0) ∧
    (⟨100, 2809 / 20, 1, [RabenPart.countryZone "Deutschland" 1, RabenPart.base 100,
        RabenPart.daf (1 / 10), RabenPart.adr (25 / 2), RabenPart.avis 12,
        RabenPart.insuranceMin (119 / 20), RabenPart.total (2809 / 20)]⟩ : RabenOk).parts.countP
        isAvisPart = (if true then 1 else 0) ∧
    (⟨100, 2809 / 20, 1, [RabenPart.countryZone "Deutschland" 1, RabenPart.base 100,
        RabenPart.daf (1 / 10), RabenPart.adr (25 / 2), RabenPart.avis 12,
        RabenPart.insuranceMin (119 / 20), RabenPart.total (2809 / 20)]⟩ : RabenOk).parts.countP
        isInsuranceMinPart = (if (0 : ℚ) < 500 then 1 else 0) :=
  c7_amended rabenZoneMapEx rabenRatesEx "DE" "DE" "38" 200 (1 / 10) true true 500
    (25 / 2) 12 (119 / 20) _
    (by norm_num [raben_quote, rabenCountryNorm, rabenZoneMapEx, rabenRatesEx,
      rabenZoneRowMatch, rabenRateRowMatch, pick_weight_band, bandMatches, effTo,
      selectMinBand, bandKey, keyLt, RabenRateRow.toBand, List.filter])

/-- Claim C8: the two carrier pipelines are computed independently and a
failure of one never prevents the other's fully computed result: the DHL
component of the orchestrated pair depends only on the DHL tables and the
Raben component only on the Raben tables (failures are `Except.error`
values, never propagated). Confirmed. -/
theorem c8_confirmed (d1 d2 : AllData) (scope c plz : String) (w fp sp daf : ℚ)
    (adr avis : Bool) (iv f1 f2 f3 : ℚ) :
    (d1.dhl_de_plz2_zone = d2.dhl_de_plz2_zone → d1.dhl_de_rates = d2.dhl_de_rates →
     d1.dhl_eu_zone_map = d2.dhl_eu_zone_map → d1.dhl_eu_rates_long = d2.dhl_eu_rates_long →
     (quoteBoth d1 scope c plz w fp sp daf adr avis iv f1 f2 f3).1
       = (quoteBoth d2 scope c plz w fp sp daf adr avis iv f1 f2 f3).1) ∧
    (d1.raben_zone_map = d2.raben_zone_map → d1.raben_rates_long = d2.raben_rates_long →
     (quoteBoth d1 scope c plz w fp sp daf adr avis iv f1 f2 f3).2
       = (quoteBoth d2 scope c plz w fp sp daf adr avis iv f1 f2 f3).2) := by
  constructor
  · intro h1 h2 h3 h4
    simp [quoteBoth, h1, h2, h3, h4]
  · intro h1 h2
    simp [quoteBoth, h1, h2]

/-- Witness for `c8_confirmed`: emptying the Raben tables makes the Raben
pipeline fail with a zone-not-found value while the DHL component is
unchanged and fully computed. -/
theorem c8_confirmed_witness :
    (quoteBoth allDataEx "DE" "DE" "38" 150 (12 / 100) 0 (1 / 10) false false 0 0 0 0).1
      = (quoteBoth allDataNoRabenEx "DE" "DE" "38" 150 (12 / 100) 0 (1 / 10)
          false false 0 0 0 0).1 ∧
    (quoteBoth allDataNoRabenEx "DE" "DE" "38" 150 (12 / 100) 0 (1 / 10)
        false false 0 0 0 0).2 = .error (.zoneNotFound "DE" "DE" "38") ∧
    (quoteBoth allDataEx "DE" "DE" "38" 150 (12 / 100) 0 (1 / 10) false false 0 0 0 0).1
      = .ok ⟨45, 252 / 5, 2⟩ :=
  ⟨(c8_confirmed allDataEx allDataNoRabenEx "DE" "DE" "38" 150 (12 / 100) 0 (1 / 10)
      false false 0 0 0 0).1 rfl rfl rfl rfl,
   by decide,
   by norm_num [quoteBoth, allDataEx, dhl_quote, dhlDeZoneEx, dhlDeRatesEx,
     pick_weight_band, bandMatches, effTo, selectMinBand, bandKey, keyLt,
     DhlDeRateRow.toBand, List.filter]⟩

/-- Claim C9: for scope DE the Raben quote is independent of the
destination-country input, because the country key is forced to
"deutschland" before any lookup (src/app.py lines 269-270): any two
country strings yield the same successful record (zone, base, total and
detail parts) or both fail. Confirmed. -/
theorem c9_confirmed (zmap : List RabenZoneRow) (rates : List RabenRateRow)
    (c1 c2 plz : String) (w daf : ℚ) (adr avis : Bool) (iv f1 f2 f3 : ℚ) :
    rabenOkOf (raben_quote zmap rates "DE" c1 plz w daf adr avis iv f1 f2 f3)
      = rabenOkOf (raben_quote zmap rates "DE" c2 plz w daf adr avis iv f1 f2 f3) := by
  have hcn1 : rabenCountryNorm "DE" c1 = "deutschland" := by simp [rabenCountryNorm]
  have hcn2 : rabenCountryNorm "DE" c2 = "deutschland" := by simp [rabenCountryNorm]
  simp only [rabenOkOf, raben_quote, hcn1, hcn2]
  rcases hz : (zmap.filter (rabenZoneRowMatch "DE" "deutschland" plz)).head? with _ | row
  · simp [hz, Except.toOption]
  · simp only [hz]
    rcases hb : pick_weight_band
        ((rates.filter (rabenRateRowMatch "DE" "deutschland" row.zone)).map
          RabenRateRow.toBand) w with _ | band
    · simp [hb, Except.toOption]
    · simp [hb, Except.toOption]

end Aifuge
